import Mathlib

/-!
# Verification of the ODBC application data buffer conversion engine

Shallow embedding of `modules/platforms/cpp/ignite/odbc/app/application_data_buffer.cpp`
(Apache Ignite 3 C++ ODBC driver).  The descriptor state, the native-type tag
enumeration, the conversion-result enumeration and every operation the claims
touch are translated directly from the C++ source.

Modelling conventions:
* Raw pointers become `Option`: `none` is the null pointer.  An operation that
  would write or read through a null data pointer (a branch of the source with
  no `if (data_ptr)` guard) returns `none` ("crash"); guarded branches skip the
  access exactly as the source does.
* Machine integers are `Int`/`Nat` with explicit wrapping (`% 2^w`) where the
  source performs a narrowing `static_cast`.
* The single bound element's storage is modelled as a typed `cell` recording
  exactly what the last store wrote; the byte/element offsets of the descriptor
  are fixed at 0, as in the constructor, and `apply_offset`'s only observable
  behaviour at offset 0 — null propagation — is captured by `Option`.
* Platform constants: the model fixes the LP64 Linux platform,
  `sizeof(long) = 8` and `sizeof(wchar_t) = 4`; `SQLLEN` is a 64-bit signed
  integer.  ODBC-standard sizes (`SQLINTEGER` = 4, `SQLBIGINT` = 8, ...) are
  fixed by the standard headers.
* IEEE float/double values are not modelled: a store into a float/double tag
  records the pre-cast integer payload opaquely, and no theorem interprets it.
-/

set_option maxRecDepth 100000

namespace IgniteOdbc

/-- Bit pattern (as a `Nat` below `2^(8*w)`) of an integer value narrowed by
`static_cast` to a `w`-byte machine integer. -/
def toUnsigned (w : Nat) (v : Int) : Nat := (v % (2 ^ (8 * w))).toNat

/-- Two's-complement reading of a `w`-byte bit pattern as a signed value. -/
def toSigned (w : Nat) (p : Nat) : Int :=
  if p < 2 ^ (8 * w - 1) then (p : Int) else (p : Int) - 2 ^ (8 * w)

/-- `static_cast` of an integer value to a `w`-byte signed machine integer
(two's-complement wrap-around, the behaviour of the compilers this code
targets). -/
def wrapSigned (w : Nat) (v : Int) : Int := toSigned w (toUnsigned w v)

/-- `static_cast<std::int32_t>` on a wider integer. -/
def toInt32 (v : Int) : Int := wrapSigned 4 v

/-- Binary bit length (`⌊log2 n⌋ + 1` for positive `n`, 0 for 0), written as
a bounded fold so that proofs can evaluate it; exact for every `n < 2^1100`,
which covers every value of the 64-bit-integer and double sources being
modelled (doubles reach `2^1024`). -/
def bit_len (n : Nat) : Nat :=
  (List.range 1100).foldl (fun acc i => if 2 ^ i ≤ n then i + 1 else acc) 0

/-- IEEE round-to-nearest (ties to even) of a natural number to a
`p`-bit-significand binary floating-point value: exact below `2^p`, otherwise
rounded to the nearest multiple of the unit in the last place. -/
def fl_round_nat (p n : Nat) : Nat :=
  if n < 2 ^ p then n
  else
    let e := bit_len n - p
    let q := n / 2 ^ e
    let r := n % 2 ^ e
    if 2 ^ e < 2 * r ∨ (2 * r = 2 ^ e ∧ q % 2 = 1) then (q + 1) * 2 ^ e
    else q * 2 ^ e

/-- `static_cast` of an integral value to a binary floating-point type with a
`p`-bit significand: IEEE round to nearest, ties to even (the conversion is
implementation-defined between the two neighbours in C++; the universal IEEE
default is modelled).  Overflow of a double source beyond the float range
(to infinity) is not modelled; no claim involves it. -/
def fl_round (p : Nat) (v : Int) : Int :=
  if v < 0 then -((fl_round_nat p (-v).toNat : Nat) : Int)
  else ((fl_round_nat p v.toNat : Nat) : Int)

/-- Significand bits of the float target of byte width `w`: 24 for `SQLREAL`
(4 bytes), 53 for `SQLDOUBLE` (8 bytes). -/
def fl_prec (w : Nat) : Nat := if w = 4 then 24 else 53

-- ODBC standard constants (from the standard `sql.h`/`sqlext.h` headers, which
-- are outside this repository but fixed by the ODBC specification).
def SQL_NULL_DATA : Int := -1
def SQL_NTS : Int := -3
def SQL_DATA_AT_EXEC : Int := -2
def SQL_LEN_DATA_AT_EXEC_OFFSET : Int := -100
def SQL_MAX_NUMERIC_LEN : Nat := 16

-- Fixed sizes of the external ODBC types on the modelled platform.
def sizeof_SQLSMALLINT : Nat := 2
def sizeof_SQLINTEGER : Nat := 4
def sizeof_SQLBIGINT : Nat := 8
def sizeof_SQLREAL : Nat := 4
def sizeof_SQLDOUBLE : Nat := 8
def sizeof_SQL_DATE_STRUCT : Nat := 6
def sizeof_SQL_TIME_STRUCT : Nat := 6
def sizeof_SQL_TIMESTAMP_STRUCT : Nat := 16
def sizeof_SQL_NUMERIC_STRUCT : Nat := 19
def sizeof_SQLGUID : Nat := 16
/-- `sizeof(long)` on the modelled LP64 platform (8; it would be 4 on
Windows/ILP32 — used only by `get_data_at_exec_size`). -/
def sizeof_long : Nat := 8
/-- `sizeof(wchar_t)` on the modelled Linux platform. -/
def sizeof_wchar : Nat := 4

/-- The `odbc_native_type` enumeration (declared in the driver's
`odbc/type_traits` headers; the set of constants is fixed by the dispatch in
the source file). -/
inductive odbc_native_type where
  | AI_UNSUPPORTED
  | AI_CHAR
  | AI_WCHAR
  | AI_SIGNED_SHORT
  | AI_UNSIGNED_SHORT
  | AI_SIGNED_LONG
  | AI_UNSIGNED_LONG
  | AI_FLOAT
  | AI_DOUBLE
  | AI_BIT
  | AI_SIGNED_TINYINT
  | AI_UNSIGNED_TINYINT
  | AI_SIGNED_BIGINT
  | AI_UNSIGNED_BIGINT
  | AI_TDATE
  | AI_TTIME
  | AI_TTIMESTAMP
  | AI_NUMERIC
  | AI_BINARY
  | AI_GUID
  | AI_DEFAULT
deriving DecidableEq, Repr

/-- The `conversion_result` outcome enumeration returned by every put/get
operation. -/
inductive conversion_result where
  | AI_SUCCESS
  | AI_VARLEN_DATA_TRUNCATED
  | AI_FRACTIONAL_TRUNCATED
  | AI_INDICATOR_NEEDED
  | AI_UNSUPPORTED_CONVERSION
deriving DecidableEq, Repr

/-- Contents of the bound element's storage.  Each constructor records exactly
what the corresponding store in the source wrote; `unspec` is storage whose
contents the source leaves unspecified. -/
inductive cell where
  /-- Uninitialized or unspecified contents. -/
  | unspec
  /-- A `w`-byte integer store (`put_num_to_num_buffer`); `p` is the stored
  bit pattern, `p < 2^(8*w)`. -/
  | ints (w : Nat) (p : Nat)
  /-- A float/double store: the exact mathematical value of the stored IEEE
  number.  Float data is modelled at integral values (every claim's float
  case concerns integer data), so the value is an `Int`, already rounded to
  the target's significand by the store. -/
  | flt (w : Nat) (val : Int)
  /-- Code units written by a text store, terminator included;
  `char_size` is `sizeof` the output character type. -/
  | chars (char_size : Nat) (written : List Nat)
  /-- Raw bytes written by a `memcpy` into a binary/default buffer. -/
  | raw (bytes : List Nat)
  /-- An `SQL_NUMERIC_STRUCT` store. -/
  | numeric (precision : Nat) (scale : Int) (sign : Nat) (val : List Nat)
  /-- An `SQLGUID` store. -/
  | guid (d1 d2 d3 : Nat) (d4 : List Nat)
  /-- An `SQL_DATE_STRUCT` store. -/
  | dateS (year : Int) (month day : Int)
  /-- An `SQL_TIME_STRUCT` store. -/
  | timeS (hour minute second : Int)
  /-- An `SQL_TIMESTAMP_STRUCT` store. -/
  | tsS (year month day hour minute second : Int) (fraction : Nat)
deriving DecidableEq, Repr

/-- The `application_data_buffer` descriptor: native-type tag, buffer address
(`none` = null), declared capacity in bytes (`SQLLEN`), and result-length /
indicator slot (`none` = null pointer, `some v` = slot currently holding `v`).
The byte/element offsets are 0, as set by the constructor. -/
structure adb where
  m_type : odbc_native_type
  m_buffer : Option cell
  m_buffer_len : Int
  m_result_len : Option Int
deriving DecidableEq, Repr

/-- `*res_len_ptr = v` guarded by `if (res_len_ptr)`. -/
def adb.setResLen (b : adb) (v : Int) : adb :=
  match b.m_result_len with
  | some _ => { b with m_result_len := some v }
  | none => b

/-- `*data_ptr = c` guarded by `if (data_ptr)`. -/
def adb.setCell (b : adb) (c : cell) : adb :=
  match b.m_buffer with
  | some _ => { b with m_buffer := some c }
  | none => b

/-- `put_string_to_string_buffer<OutCharT>(value, written)`:
`char_size = sizeof(OutCharT)`, `value` is the list of input code units.
Returns the updated descriptor, the conversion result, and `written`. -/
def put_string_to_string_buffer (char_size : Nat) (value : List Nat) (b : adb) :
    adb × conversion_result × Int :=
  let b1 := b.setResLen (value.length : Int)
  match b1.m_buffer with
  | none => (b1, .AI_SUCCESS, 0)
  | some _ =>
    if b1.m_buffer_len < (char_size : Int) then
      (b1, .AI_VARLEN_DATA_TRUNCATED, 0)
    else
      let outLen : Int := b1.m_buffer_len / (char_size : Int) - 1
      let to_copy : Int := min outLen (value.length : Int)
      let b2 := { b1 with m_buffer := some (.chars char_size (value.take to_copy.toNat ++ [0])) }
      if to_copy < (value.length : Int) then
        (b2, .AI_VARLEN_DATA_TRUNCATED, to_copy)
      else
        (b2, .AI_SUCCESS, to_copy)

/-- The internal numeric kinds the engine's numeric template is instantiated
at (`put_num<T>` / `get_num<T>` for `int8_t`, `int16_t`, `int32_t`, `int64_t`,
`float`, `double`).  Values of the float kinds are modelled at integral
mathematical values (carried as `Int`); fractional float data is outside the
embedding and no theorem quantifies over it. -/
inductive num_kind where
  | i8 | i16 | i32 | i64 | f32 | f64
deriving DecidableEq, Repr

/-- `sizeof` the kind's C++ type. -/
def kind_sizeof : num_kind → Nat
  | .i8 => 1
  | .i16 => 2
  | .i32 => 4
  | .i64 => 8
  | .f32 => 4
  | .f64 => 8

/-- Whether the kind is one of the integer instantiations. -/
def kind_is_int : num_kind → Bool
  | .i8 | .i16 | .i32 | .i64 => true
  | .f32 | .f64 => false

/-- `stringstream << value` for an integer value: the canonical base-10 form
(code-unit list).  The `int8_t` overload first casts to `int`, which produces
the same digits.  For the float kinds the source formats the double with
stream defaults; that IEEE formatting is not modelled — the tracked integer
payload is rendered instead, and no theorem depends on this case. -/
def num_to_chars (v : Int) : List Nat := (toString v).toList.map Char.toNat

/-- Little-endian byte list (length `w`) of a `w`-byte bit pattern. -/
def le_bytes (w : Nat) (p : Nat) : List Nat :=
  (List.range w).map (fun i => p / 2 ^ (8 * i) % 256)

/-- `digit_length` from `ignite/common/bits.h` (this repository, outside
`src/`).  Modelled from the spec: the number of base-10 digits of the
magnitude (1 for zero). -/
def digit_length (n : Nat) : Nat := (Nat.toDigits 10 n).length

/-- `put_num_to_num_buffer<TBuf>` for an integer target type of width `w`:
stores `static_cast<TBuf>(value)` (two's-complement bit pattern) when the data
pointer is non-null, writes `sizeof(TBuf)` to the result-length slot when
bound, and always succeeds. -/
def put_num_to_num_buffer_int (w : Nat) (value : Int) (b : adb) :
    adb × conversion_result :=
  ((b.setCell (.ints w (toUnsigned w value))).setResLen (w : Int), .AI_SUCCESS)

/-- `put_num_to_num_buffer<TBuf>` for `TBuf` = `SQLREAL`/`SQLDOUBLE` of width
`w`: stores `static_cast<TBuf>(value)`, i.e. the source value rounded to the
target's significand (for the modelled integral data), writes `sizeof(TBuf)`
to the slot when bound, and always succeeds. -/
def put_num_to_num_buffer_flt (w : Nat) (value : Int) (b : adb) :
    adb × conversion_result :=
  ((b.setCell (.flt w (fl_round (fl_prec w) value))).setResLen (w : Int),
    .AI_SUCCESS)

/-- `application_data_buffer::put_num<T>(value)`: dispatch on the native-type
tag.  `value` is the mathematical value of the `T` argument (for the float
kinds, an opaque integer payload). -/
def put_num (k : num_kind) (value : Int) (b : adb) :
    Option (adb × conversion_result) :=
  match b.m_type with
  | .AI_SIGNED_TINYINT => some (put_num_to_num_buffer_int 1 value b)
  | .AI_BIT => some (put_num_to_num_buffer_int 1 value b)
  | .AI_UNSIGNED_TINYINT => some (put_num_to_num_buffer_int 1 value b)
  | .AI_SIGNED_SHORT => some (put_num_to_num_buffer_int 2 value b)
  | .AI_UNSIGNED_SHORT => some (put_num_to_num_buffer_int 2 value b)
  | .AI_SIGNED_LONG => some (put_num_to_num_buffer_int 4 value b)
  | .AI_UNSIGNED_LONG => some (put_num_to_num_buffer_int 4 value b)
  | .AI_SIGNED_BIGINT => some (put_num_to_num_buffer_int 8 value b)
  | .AI_UNSIGNED_BIGINT => some (put_num_to_num_buffer_int 8 value b)
  | .AI_FLOAT => some (put_num_to_num_buffer_flt 4 value b)
  | .AI_DOUBLE => some (put_num_to_num_buffer_flt 8 value b)
  | .AI_CHAR =>
      let r := put_string_to_string_buffer 1 (num_to_chars value) b
      some (r.1, r.2.1)
  | .AI_WCHAR =>
      let r := put_string_to_string_buffer sizeof_wchar (num_to_chars value) b
      some (r.1, r.2.1)
  | .AI_NUMERIC =>
      -- `auto u_val = static_cast<std::uint64_t>(value < 0 ? -value : value);`
      let u_val : Nat := toUnsigned 8 (if value < 0 then -value else value)
      let b1 := b.setCell (.numeric (digit_length u_val) 0
        (if value < 0 then 0 else 1) (le_bytes 8 u_val ++ List.replicate 8 0))
      let b2 := b1.setResLen (sizeof_SQL_NUMERIC_STRUCT : Int)
      some (b2, .AI_SUCCESS)
  | .AI_BINARY | .AI_DEFAULT =>
      -- `memcpy(data_ptr, &value, min(sizeof(value), size_t(m_buffer_len)))`;
      -- the negative-capacity size_t cast wraps, as in the source.
      let size_t_len : Nat := toUnsigned 8 b.m_buffer_len
      let to_copy : Nat := min (kind_sizeof k) size_t_len
      let b1 := if to_copy = 0 then b else
        b.setCell (.raw ((le_bytes (kind_sizeof k) (toUnsigned (kind_sizeof k) value)).take to_copy))
      let b2 := b1.setResLen (kind_sizeof k : Int)
      some (b2, if size_t_len < kind_sizeof k then .AI_VARLEN_DATA_TRUNCATED
        else .AI_SUCCESS)
  | .AI_TDATE | .AI_TTIMESTAMP | .AI_TTIME | .AI_GUID | .AI_UNSUPPORTED =>
      some (b, .AI_UNSUPPORTED_CONVERSION)

/-- `put_int8`. -/
def put_int8 (v : Int) (b : adb) : Option (adb × conversion_result) :=
  put_num .i8 v b

/-- `put_int16`. -/
def put_int16 (v : Int) (b : adb) : Option (adb × conversion_result) :=
  put_num .i16 v b

/-- `put_int32`. -/
def put_int32 (v : Int) (b : adb) : Option (adb × conversion_result) :=
  put_num .i32 v b

/-- `put_int64`. -/
def put_int64 (v : Int) (b : adb) : Option (adb × conversion_result) :=
  put_num .i64 v b

/-- `stringstream >> int64_t` extraction, modelled as a plain sign-and-digits
base-10 parse (stream skip/clamp corner cases are not modelled; no theorem
depends on the parsed value). -/
def parse_int64 (s : List Nat) : Int :=
  let digits : List Nat → Nat := fun l =>
    (l.takeWhile (fun c => 48 ≤ c && c ≤ 57)).foldl (fun a c => a * 10 + (c - 48)) 0
  match s with
  | 45 :: rest => -((digits rest : Nat) : Int)
  | _ => ((digits s : Nat) : Int)

/-- `application_data_buffer::put_string(value, written)`. -/
def put_string (value : List Nat) (b : adb) :
    Option (adb × conversion_result × Int) :=
  match b.m_type with
  | .AI_SIGNED_TINYINT | .AI_BIT | .AI_UNSIGNED_TINYINT | .AI_SIGNED_SHORT
  | .AI_UNSIGNED_SHORT | .AI_SIGNED_LONG | .AI_UNSIGNED_LONG
  | .AI_SIGNED_BIGINT | .AI_UNSIGNED_BIGINT | .AI_NUMERIC =>
      let numValue := parse_int64 value
      (put_num .i64 numValue b).map (fun r => (r.1, r.2, (value.length : Int)))
  | .AI_FLOAT | .AI_DOUBLE =>
      -- `converter >> double`; the parsed double is an opaque payload.
      let numValue := parse_int64 value
      (put_num .f64 numValue b).map (fun r => (r.1, r.2, (value.length : Int)))
  | .AI_CHAR | .AI_BINARY | .AI_DEFAULT =>
      some (put_string_to_string_buffer 1 value b)
  | .AI_WCHAR =>
      some (put_string_to_string_buffer sizeof_wchar value b)
  | .AI_TDATE | .AI_TTIME | .AI_TTIMESTAMP | .AI_GUID | .AI_UNSUPPORTED =>
      some (b, .AI_UNSUPPORTED_CONVERSION, 0)

/-- `application_data_buffer::put_null()`. -/
def put_null (b : adb) : adb × conversion_result :=
  match b.m_result_len with
  | none => (b, .AI_INDICATOR_NEEDED)
  | some _ => ({ b with m_result_len := some SQL_NULL_DATA }, .AI_SUCCESS)

/-- `sizeof(SQLWCHAR)` (unixODBC `unsigned short`), the element type of the
`string_to_wstring` helper. -/
def sizeof_SQLWCHAR : Nat := 2

/-- The arbitrary-precision `big_decimal` lives in `ignite/common` (this
repository, outside `src/`).  Modelled from the spec: only the observations
`put_decimal` makes of a decimal value are represented, carried as abstract
data with the value — its `to_int64()` result, its `ToDouble()` payload
(opaque), its canonical text form, and the big-endian magnitude bytes, sign
and precision of `set_scale(0, …).get_unscaled_value()`. -/
structure big_decimal where
  to_int64 : Int
  toDoublePayload : Int
  text : List Nat
  unscaled_bytes : List Nat
  unscaled_sign : Int
  unscaled_precision : Nat
deriving DecidableEq, Repr

/-- `application_data_buffer::put_decimal(value)`. -/
def put_decimal (v : big_decimal) (b : adb) : Option (adb × conversion_result) :=
  match b.m_type with
  | .AI_SIGNED_TINYINT | .AI_BIT | .AI_UNSIGNED_TINYINT | .AI_SIGNED_SHORT
  | .AI_UNSIGNED_SHORT | .AI_SIGNED_LONG | .AI_UNSIGNED_LONG
  | .AI_SIGNED_BIGINT | .AI_UNSIGNED_BIGINT =>
      -- `put_num<int64_t>(value.to_int64()); return AI_FRACTIONAL_TRUNCATED;`
      (put_num .i64 v.to_int64 b).map (fun r => (r.1, .AI_FRACTIONAL_TRUNCATED))
  | .AI_FLOAT | .AI_DOUBLE =>
      -- `put_num<double>(value.ToDouble()); return AI_FRACTIONAL_TRUNCATED;`
      (put_num .f64 v.toDoublePayload b).map (fun r => (r.1, .AI_FRACTIONAL_TRUNCATED))
  | .AI_CHAR | .AI_WCHAR =>
      (put_string v.text b).map (fun r => (r.1, r.2.1))
  | .AI_NUMERIC =>
      match b.m_buffer with
      | none => none   -- `numeric->val[i] = …` dereferences the null data pointer
      | some _ =>
        let bytes := v.unscaled_bytes
        -- `val[i] = bytes[size-1-i]` when the index is in range, else 0
        let val := (List.range SQL_MAX_NUMERIC_LEN).map (fun i =>
          if i < bytes.length then bytes.getD (bytes.length - 1 - i) 0 else 0)
        let b1 := { b with m_buffer := some (.numeric v.unscaled_precision 0
          (if v.unscaled_sign < 0 then 0 else 1) val) }
        let b2 := b1.setResLen (sizeof_SQL_NUMERIC_STRUCT : Int)
        some (b2, if SQL_MAX_NUMERIC_LEN < bytes.length then
          conversion_result.AI_FRACTIONAL_TRUNCATED else .AI_SUCCESS)
  | .AI_DEFAULT | .AI_BINARY | .AI_TDATE | .AI_TTIME | .AI_TTIMESTAMP
  | .AI_GUID | .AI_UNSUPPORTED =>
      some (b, .AI_UNSUPPORTED_CONVERSION)

/-- A 128-bit `ignite::uuid` as the bit patterns of its two signed 64-bit
halves (`get_most_significant_bits` / `get_least_significant_bits`). -/
structure uuid where
  msb : Nat
  lsb : Nat
deriving DecidableEq, Repr

/-- `stringstream << uuid` (external `operator<<`, `ignite/common`): the
canonical text form.  Its exact characters are outside the model (rendered
here from the 128-bit value); no theorem depends on them. -/
def uuid_to_chars (v : uuid) : List Nat := num_to_chars (v.msb * 2 ^ 64 + v.lsb)

/-- `application_data_buffer::put_uuid(value)`. -/
def put_uuid (v : uuid) (b : adb) : Option (adb × conversion_result) :=
  match b.m_type with
  | .AI_CHAR | .AI_BINARY | .AI_DEFAULT =>
      let r := put_string_to_string_buffer 1 (uuid_to_chars v) b
      some (r.1, r.2.1)
  | .AI_WCHAR =>
      let r := put_string_to_string_buffer sizeof_wchar (uuid_to_chars v) b
      some (r.1, r.2.1)
  | .AI_GUID =>
      match b.m_buffer with
      | none => none   -- `guid->Data1 = …` dereferences the null data pointer
      | some _ =>
        let d1 := (v.msb >>> 32) % 2 ^ 32
        let d2 := (v.msb >>> 16) % 2 ^ 16
        let d3 := v.msb % 2 ^ 16
        let d4 := (List.range 8).map (fun i => (v.lsb >>> ((8 - i - 1) * 8)) % 256)
        let b1 := { b with m_buffer := some (.guid d1 d2 d3 d4) }
        some (b1.setResLen (sizeof_SQLGUID : Int), .AI_SUCCESS)
  | _ => some (b, .AI_UNSUPPORTED_CONVERSION)

/-- `application_data_buffer::is_data_at_exec()`. -/
def is_data_at_exec (b : adb) : Bool :=
  match b.m_result_len with
  | none => false
  | some v =>
    let s := toInt32 v
    decide (s ≤ SQL_LEN_DATA_AT_EXEC_OFFSET ∨ s = SQL_DATA_AT_EXEC)

/-- `application_data_buffer::get_data_at_exec_size()`.  The long/short/char
sizes in this function are the C sizes of those keywords on the modelled LP64
platform (`sizeof(long) = 8`, unlike `element_size`'s 4-byte `SQLINTEGER`). -/
def get_data_at_exec_size (b : adb) : Int :=
  match b.m_type with
  | .AI_WCHAR | .AI_CHAR | .AI_BINARY =>
    (match b.m_result_len with
    | none => 0
    | some v =>
      let s := toInt32 v
      -- `s_len = SQL_LEN_DATA_AT_EXEC(s_len)` i.e. `-(s_len) + (-100)`
      let s1 := if s ≤ SQL_LEN_DATA_AT_EXEC_OFFSET then
        -s + SQL_LEN_DATA_AT_EXEC_OFFSET else 0
      -- `s_len *= 2;` on an int32
      if b.m_type = .AI_WCHAR then toInt32 (s1 * 2) else s1)
  | .AI_SIGNED_SHORT | .AI_UNSIGNED_SHORT => (sizeof_SQLSMALLINT : Int)
  | .AI_SIGNED_LONG | .AI_UNSIGNED_LONG => (sizeof_long : Int)
  | .AI_FLOAT => (sizeof_SQLREAL : Int)
  | .AI_DOUBLE => (sizeof_SQLDOUBLE : Int)
  | .AI_BIT | .AI_SIGNED_TINYINT | .AI_UNSIGNED_TINYINT => 1
  | .AI_SIGNED_BIGINT | .AI_UNSIGNED_BIGINT => (sizeof_SQLBIGINT : Int)
  | .AI_TDATE => (sizeof_SQL_DATE_STRUCT : Int)
  | .AI_TTIME => (sizeof_SQL_TIME_STRUCT : Int)
  | .AI_TTIMESTAMP => (sizeof_SQL_TIMESTAMP_STRUCT : Int)
  | .AI_NUMERIC => (sizeof_SQL_NUMERIC_STRUCT : Int)
  | .AI_GUID => (sizeof_SQLGUID : Int)
  | .AI_DEFAULT | .AI_UNSUPPORTED => 0

/-- `application_data_buffer::get_element_size()`. -/
def get_element_size (b : adb) : Int :=
  match b.m_type with
  | .AI_WCHAR | .AI_CHAR | .AI_BINARY => b.m_buffer_len
  | .AI_SIGNED_SHORT | .AI_UNSIGNED_SHORT => (sizeof_SQLSMALLINT : Int)
  | .AI_SIGNED_LONG | .AI_UNSIGNED_LONG => (sizeof_SQLINTEGER : Int)
  | .AI_FLOAT => (sizeof_SQLREAL : Int)
  | .AI_DOUBLE => (sizeof_SQLDOUBLE : Int)
  | .AI_SIGNED_TINYINT | .AI_BIT | .AI_UNSIGNED_TINYINT => 1
  | .AI_SIGNED_BIGINT | .AI_UNSIGNED_BIGINT => (sizeof_SQLBIGINT : Int)
  | .AI_TDATE => (sizeof_SQL_DATE_STRUCT : Int)
  | .AI_TTIME => (sizeof_SQL_TIME_STRUCT : Int)
  | .AI_TTIMESTAMP => (sizeof_SQL_TIMESTAMP_STRUCT : Int)
  | .AI_NUMERIC => (sizeof_SQL_NUMERIC_STRUCT : Int)
  | .AI_GUID => (sizeof_SQLGUID : Int)
  | .AI_DEFAULT | .AI_UNSUPPORTED => 0

/-- `application_data_buffer::get_input_size()`. -/
def get_input_size (b : adb) : Int :=
  if !is_data_at_exec b then
    match b.m_result_len with
    | some l => l
    | none => SQL_NTS
  else get_data_at_exec_size b

/-- `sql_string_to_string` (driver utility, this repository, outside `src/`).
Modelled from the spec: reads at most `len` code units of the narrow text in
the buffer, stopping at the terminator.  Cross-type and null-pointer reads
are outside the model (they yield the empty string here); no claim depends on
this helper. -/
def read_narrow_chars (b : adb) (len : Int) : List Nat :=
  match b.m_buffer with
  | some (.chars 1 ws) => (ws.takeWhile (fun c => c ≠ 0)).take len.toNat
  | _ => []

/-- `stringstream >> uuid` (external `operator>>`, `ignite/common`).
Modelled from the spec: text parsing of a uuid is not represented (the
default uuid is returned); no claim depends on it. -/
def uuid_parse (_s : List Nat) : uuid := ⟨0, 0⟩

/-- `application_data_buffer::get_uuid()`. -/
def get_uuid (b : adb) : Option uuid :=
  match b.m_type with
  | .AI_CHAR =>
      let param_len := get_input_size b
      if param_len = 0 then some ⟨0, 0⟩
      else some (uuid_parse (read_narrow_chars b param_len))
  | .AI_GUID =>
      match b.m_buffer with
      | none => none   -- `guid->Data1` is read through the null data pointer
      | some (.guid d1 d2 d3 d4) =>
          let msb := (d1 <<< 32) ||| (d2 <<< 16) ||| d3
          -- the source loop ASSIGNS `lsb =` (not `|=`) each iteration, so only
          -- the final iteration (i = 7, shift 0) survives
          let lsb := (List.range 8).foldl
            (fun _ i => ((d4.getD i 0) <<< ((8 - i - 1) * 8)) % 2 ^ 64) 0
          some ⟨msb, lsb⟩
      | some _ => some ⟨0, 0⟩  -- reinterpreting other-typed storage: not modelled
  | _ => some ⟨0, 0⟩

/-- `application_data_buffer::get_size()` (declared in the header, this
repository, outside `src/`).  Modelled from the spec: the declared buffer
capacity. -/
def adb.get_size (b : adb) : Int := b.m_buffer_len

/-- What `strftime(buffer, maxsize, …)` leaves in the buffer when the
formatted text is `s`: the text plus terminator when it fits, otherwise
unspecified contents (strftime then returns 0 and the contents are
indeterminate). -/
def strftime_cell (maxsize : Int) (s : List Nat) : cell :=
  if (s.length : Int) + 1 ≤ maxsize then .chars 1 (s ++ [0]) else .unspec

/-- The anonymous-namespace helper `string_to_wstring(str, str_len, wstr,
wstr_len)` as a transformation of the target cell (its returned conversion
result is discarded by every caller in the file). -/
def string_to_wstring_upd (str : List Nat) (wstr_len : Int) (old : cell) : cell :=
  if wstr_len ≤ 0 then old
  else
    let to_copy : Int := min (str.length : Int) (wstr_len - 1)
    if to_copy ≤ 0 then .chars sizeof_SQLWCHAR [0]
    else .chars sizeof_SQLWCHAR (str.take to_copy.toNat ++ [0])

/-- The zero-`tm` date text `"1900-01-00"`: pending IGNITE-19205 the date
argument is unused and every branch formats the zero-initialised `tm`. -/
def date_chars_1900 : List Nat := "1900-01-00".toList.map Char.toNat

/-- `application_data_buffer::put_date(value)`.  The `value` argument is
unused by the source (IGNITE-19205): every branch renders the
zero-initialised `tm` (year 1900, month 1, day 0). -/
def put_date (b : adb) : Option (adb × conversion_result) :=
  match b.m_type with
  | .AI_CHAR =>
      let valLen : Int := 10   -- sizeof("HHHH-MM-DD") - 1
      let b1 := b.setResLen valLen
      let b2 := match b1.m_buffer with
        | none => b1
        | some _ => { b1 with m_buffer := some (strftime_cell b1.get_size date_chars_1900) }
      some (b2, if valLen + 1 > b.get_size then
        conversion_result.AI_VARLEN_DATA_TRUNCATED else .AI_SUCCESS)
  | .AI_WCHAR =>
      let valLen : Int := 10
      let b1 := b.setResLen valLen
      let b2 := match b1.m_buffer with
        | none => b1
        | some c =>
          -- tmp = string(valLen+1, 0) filled by strftime ("1900-01-00\0"),
          -- then string_to_wstring(tmp, tmp.size(), buffer, get_size())
          let c2 := string_to_wstring_upd (date_chars_1900 ++ [0]) b1.get_size c
          { b1 with m_buffer := some c2 }
      some (b2, if valLen + 1 > b.get_size then
        conversion_result.AI_VARLEN_DATA_TRUNCATED else .AI_SUCCESS)
  | .AI_TDATE =>
      match b.m_buffer with
      | none => none   -- `buffer->year = …` dereferences the null data pointer
      | some _ =>
        let b1 := { b with m_buffer := some (.dateS 1900 1 0) }
        some (b1.setResLen (sizeof_SQL_DATE_STRUCT : Int), .AI_SUCCESS)
  | .AI_TTIME =>
      match b.m_buffer with
      | none => none
      | some _ =>
        let b1 := { b with m_buffer := some (.timeS 0 0 0) }
        some (b1.setResLen (sizeof_SQL_TIME_STRUCT : Int), .AI_SUCCESS)
  | .AI_TTIMESTAMP =>
      match b.m_buffer with
      | none => none
      | some _ =>
        let b1 := { b with m_buffer := some (.tsS 1900 1 0 0 0 0 0) }
        some (b1.setResLen (sizeof_SQL_TIMESTAMP_STRUCT : Int), .AI_SUCCESS)
  | _ => some (b, .AI_UNSUPPORTED_CONVERSION)

/-- `static_cast<T>` of a loaded (integral) value to the requested kind: for
the integer kinds two's-complement narrowing (an out-of-range float-to-int
conversion is UB in C++; the wrap here is a model choice no theorem relies
on), for the float kinds the IEEE rounding to the kind's significand. -/
def cast_to_kind (k : num_kind) (v : Int) : Int :=
  match k with
  | .i8 => wrapSigned 1 v
  | .i16 => wrapSigned 2 v
  | .i32 => wrapSigned 4 v
  | .i64 => wrapSigned 8 v
  | .f32 => fl_round 24 v
  | .f64 => fl_round 53 v

/-- `LoadPrimitive<TSrc, _>`: the value of the bound storage read as a
`w`-byte integer of the given signedness.  Reading storage written as a
different width or type reinterprets raw bytes, which is outside the model
(0 here); no claim depends on that case. -/
def load_int_cell (w : Nat) (signedSrc : Bool) (c : cell) : Int :=
  match c with
  | .ints w2 p => if w2 = w then (if signedSrc then toSigned w p else (p : Int)) else 0
  | _ => 0

/-- The external `big_decimal(val, SQL_MAX_NUMERIC_LEN, scale, sign, false)`
constructor followed by `to_int64()` (`ignite/common`, this repository,
outside `src/`).  Modelled from the spec: the little-endian magnitude with
the given sign, scaled by `10^-scale` (truncating), wrapped to int64. -/
def numeric_cell_to_int64 (c : cell) : Int :=
  match c with
  | .numeric _ scale sign val =>
    let mag : Nat := (val.take SQL_MAX_NUMERIC_LEN).foldr
      (fun byte acc => byte + 256 * acc) 0
    let signed : Int := (if sign = 0 then -1 else 1) * (mag : Int)
    wrapSigned 8 (if 0 ≤ scale then signed / (10 : Int) ^ scale.toNat
      else signed * (10 : Int) ^ (-scale).toNat)
  | _ => 0

/-- The (integral) mathematical value of a loaded float/double cell
(`LoadPrimitive<float|double>` before the final cast).  Reading storage
written as another type reinterprets raw bytes, outside the model (0 here);
no claim depends on that case. -/
def load_flt_cell (c : cell) : Int :=
  match c with
  | .flt _ v => v
  | _ => 0

/-- `application_data_buffer::get_num<T>()`. -/
def get_num (k : num_kind) (b : adb) : Option Int :=
  match b.m_type with
  | .AI_CHAR =>
      let param_len := get_input_size b
      if param_len = 0 then some 0   -- `if (!param_len) break;` leaves T()
      else
        -- `get_string(param_len)` then stream extraction; the `sizeof(T)==1`
        -- workaround extracts via `short`, same value after the final cast
        some (cast_to_kind k (parse_int64 (read_narrow_chars b param_len)))
  | .AI_SIGNED_TINYINT =>
      (b.m_buffer.map (fun c => cast_to_kind k (load_int_cell 1 true c)))
  | .AI_BIT | .AI_UNSIGNED_TINYINT =>
      (b.m_buffer.map (fun c => cast_to_kind k (load_int_cell 1 false c)))
  | .AI_SIGNED_SHORT =>
      (b.m_buffer.map (fun c => cast_to_kind k (load_int_cell 2 true c)))
  | .AI_UNSIGNED_SHORT =>
      (b.m_buffer.map (fun c => cast_to_kind k (load_int_cell 2 false c)))
  | .AI_SIGNED_LONG =>
      (b.m_buffer.map (fun c => cast_to_kind k (load_int_cell 4 true c)))
  | .AI_UNSIGNED_LONG =>
      (b.m_buffer.map (fun c => cast_to_kind k (load_int_cell 4 false c)))
  | .AI_SIGNED_BIGINT =>
      (b.m_buffer.map (fun c => cast_to_kind k (load_int_cell 8 true c)))
  | .AI_UNSIGNED_BIGINT =>
      (b.m_buffer.map (fun c => cast_to_kind k (load_int_cell 8 false c)))
  | .AI_FLOAT | .AI_DOUBLE =>
      (b.m_buffer.map (fun c => cast_to_kind k (load_flt_cell c)))
  | .AI_NUMERIC =>
      (b.m_buffer.map (fun c => cast_to_kind k (numeric_cell_to_int64 c)))
  | _ => some 0

/-- `get_int8`. -/
def get_int8 (b : adb) : Option Int := get_num .i8 b

/-- `get_int16`. -/
def get_int16 (b : adb) : Option Int := get_num .i16 b

/-- `get_int32`. -/
def get_int32 (b : adb) : Option Int := get_num .i32 b

/-- `get_int64`. -/
def get_int64 (b : adb) : Option Int := get_num .i64 b

/-- The width (in bytes) of the fixed integer target type `TBuf` that
`put_num`'s dispatch selects for a tag, when it selects one. -/
def num_target_width : odbc_native_type → Option Nat
  | .AI_SIGNED_TINYINT | .AI_BIT | .AI_UNSIGNED_TINYINT => some 1
  | .AI_SIGNED_SHORT | .AI_UNSIGNED_SHORT => some 2
  | .AI_SIGNED_LONG | .AI_UNSIGNED_LONG => some 4
  | .AI_SIGNED_BIGINT | .AI_UNSIGNED_BIGINT => some 8
  | _ => none

/-- The width of the float target type `put_num` selects, when it selects
one (`SQLREAL`/`SQLDOUBLE`). -/
def flt_target_width : odbc_native_type → Option Nat
  | .AI_FLOAT => some 4
  | .AI_DOUBLE => some 8
  | _ => none

/-- The width and signedness of the `LoadPrimitive` source type that
`get_num`'s dispatch selects for a tag, when it selects a fixed integer
load. -/
def tag_load : odbc_native_type → Option (Nat × Bool)
  | .AI_SIGNED_TINYINT => some (1, true)
  | .AI_BIT | .AI_UNSIGNED_TINYINT => some (1, false)
  | .AI_SIGNED_SHORT => some (2, true)
  | .AI_UNSIGNED_SHORT => some (2, false)
  | .AI_SIGNED_LONG => some (4, true)
  | .AI_UNSIGNED_LONG => some (4, false)
  | .AI_SIGNED_BIGINT => some (8, true)
  | .AI_UNSIGNED_BIGINT => some (8, false)
  | _ => none

/-- `v` is representable by a `w`-byte signed machine integer. -/
def in_range_signed (w : Nat) (v : Int) : Prop :=
  -(2 ^ (8 * w - 1)) ≤ v ∧ v < 2 ^ (8 * w - 1)

/-- `v` is representable by a `w`-byte unsigned machine integer. -/
def in_range_unsigned (w : Nat) (v : Int) : Prop :=
  0 ≤ v ∧ v < 2 ^ (8 * w)

/-- `v` is representable by the load target described by `(w, sg)`. -/
def load_in_range (w : Nat) (sg : Bool) (v : Int) : Prop :=
  if sg then in_range_signed w v else in_range_unsigned w v

/-- `v` is exactly representable by the kind's own C++ type: the signed range
for the integer kinds; for the float kinds, exactness under rounding to the
kind's significand. -/
def kind_in_range (k : num_kind) (v : Int) : Prop :=
  match k with
  | .i8 => in_range_signed 1 v
  | .i16 => in_range_signed 2 v
  | .i32 => in_range_signed 4 v
  | .i64 => in_range_signed 8 v
  | .f32 => fl_round 24 v = v
  | .f64 => fl_round 53 v = v

/-! ## Helper lemmas -/

lemma setResLen_m_type (b : adb) (v : Int) : (b.setResLen v).m_type = b.m_type := by
  unfold adb.setResLen; split <;> rfl

lemma setCell_m_type (b : adb) (c : cell) : (b.setCell c).m_type = b.m_type := by
  unfold adb.setCell; split <;> rfl

lemma setResLen_m_buffer (b : adb) (v : Int) :
    (b.setResLen v).m_buffer = b.m_buffer := by
  unfold adb.setResLen; split <;> rfl

lemma setCell_m_buffer_of_some (b : adb) (c c0 : cell) (h : b.m_buffer = some c0) :
    (b.setCell c).m_buffer = some c := by
  unfold adb.setCell; rw [h]

/-- A two's-complement-wrapped signed value in range reads back unchanged. -/
lemma toSigned_toUnsigned_of_range (w : Nat) (v : Int) (hw : 1 ≤ w)
    (h1 : -(2 ^ (8 * w - 1)) ≤ v) (h2 : v < 2 ^ (8 * w - 1)) :
    toSigned w (toUnsigned w v) = v := by
  have hsplit : 2 ^ (8 * w - 1) * 2 = (2 : Int) ^ (8 * w) := by
    rw [← pow_succ]
    congr 1
    omega
  have hNpos : (0 : Int) < 2 ^ (8 * w) := by positivity
  unfold toSigned toUnsigned
  rcases le_or_lt 0 v with hv | hv
  · have hmod : v % 2 ^ (8 * w) = v := Int.emod_eq_of_lt hv (by omega)
    have hlt : v < 2 ^ (8 * w) := by omega
    rw [hmod]
    have htn : ((v.toNat : Int)) = v := Int.toNat_of_nonneg hv
    have hcmp : v.toNat < 2 ^ (8 * w - 1) := by
      have : ((v.toNat : Int)) < ((2 ^ (8 * w - 1) : Nat) : Int) := by
        push_cast
        omega
      exact_mod_cast this
    simp [hcmp, htn]
  · have hmod : v % 2 ^ (8 * w) = v + 2 ^ (8 * w) := by
      have hshift : (v + 2 ^ (8 * w)) % 2 ^ (8 * w) = v % 2 ^ (8 * w) := by
        have := Int.add_mul_emod_self_left (a := v) (b := 2 ^ (8 * w)) (c := 1)
        simp only [mul_one] at this
        exact this
      rw [← hshift]
      exact Int.emod_eq_of_lt (by omega) (by omega)
    rw [hmod]
    have hge : ¬ ((v + 2 ^ (8 * w)).toNat < 2 ^ (8 * w - 1)) := by
      have h0 : (0 : Int) ≤ v + 2 ^ (8 * w) := by omega
      have : ((2 ^ (8 * w - 1) : Nat) : Int) ≤ (v + 2 ^ (8 * w)).toNat := by
        rw [Int.toNat_of_nonneg h0]
        push_cast
        omega
      omega
    have h0 : (0 : Int) ≤ v + 2 ^ (8 * w) := by omega
    simp only [hge, if_false]
    rw [Int.toNat_of_nonneg h0]
    omega

/-- An unsigned-wrapped value in range reads back unchanged. -/
lemma toUnsigned_of_range (w : Nat) (v : Int)
    (h1 : 0 ≤ v) (h2 : v < 2 ^ (8 * w)) :
    ((toUnsigned w v : Nat) : Int) = v := by
  unfold toUnsigned
  rw [Int.emod_eq_of_lt h1 (by exact_mod_cast h2)]
  exact Int.toNat_of_nonneg h1

/-- `static_cast` to the kind's own type is the identity on exactly
representable values. -/
lemma cast_to_kind_of_range (k : num_kind) (v : Int)
    (h : kind_in_range k v) : cast_to_kind k v = v := by
  cases k <;>
    simp_all [kind_in_range, cast_to_kind, wrapSigned, in_range_signed] <;>
    exact (toSigned_toUnsigned_of_range _ _ (by norm_num) h.1 h.2)

/-- On a tag with a fixed integer target, `put_num` stores the narrowed bit
pattern, reports `sizeof(TBuf)` and succeeds. -/
lemma put_num_of_int_target (k : num_kind) (v : Int) (b : adb) (w : Nat)
    (h : num_target_width b.m_type = some w) :
    put_num k v b =
      some ((b.setCell (.ints w (toUnsigned w v))).setResLen (w : Int),
        .AI_SUCCESS) := by
  rcases b with ⟨t, buf, len, slot⟩
  cases t <;> simp_all [num_target_width, put_num, put_num_to_num_buffer_int]

/-- On a float/double tag, `put_num` stores the value rounded to the
target's significand, reports the target size and succeeds. -/
lemma put_num_of_flt_target (k : num_kind) (v : Int) (b : adb) (w : Nat)
    (h : flt_target_width b.m_type = some w) :
    put_num k v b =
      some ((b.setCell (.flt w (fl_round (fl_prec w) v))).setResLen (w : Int),
        .AI_SUCCESS) := by
  rcases b with ⟨t, buf, len, slot⟩
  cases t <;> simp_all [flt_target_width, put_num, put_num_to_num_buffer_flt]

/-- On a float/double tag, `get_num` is the kind cast of the loaded float
cell value. -/
lemma get_num_of_flt_tag (k : num_kind) (b : adb) (c : cell) (w : Nat)
    (h : flt_target_width b.m_type = some w)
    (hbuf : b.m_buffer = some c) :
    get_num k b = some (cast_to_kind k (load_flt_cell c)) := by
  rcases b with ⟨t, buf, len, slot⟩
  cases t <;> simp_all [flt_target_width, get_num]

lemma tag_load_num_target (t : odbc_native_type) (w : Nat) (sg : Bool)
    (h : tag_load t = some (w, sg)) : num_target_width t = some w := by
  cases t <;> simp_all [tag_load, num_target_width]

lemma tag_load_w_pos (t : odbc_native_type) (w : Nat) (sg : Bool)
    (h : tag_load t = some (w, sg)) : 1 ≤ w := by
  cases t <;> simp_all [tag_load] <;> omega

/-- On a tag with a fixed integer load, `get_num` is the cast of the loaded
cell value. -/
lemma get_num_of_tag_load (k : num_kind) (b : adb) (w : Nat) (sg : Bool)
    (c : cell) (h : tag_load b.m_type = some (w, sg))
    (hbuf : b.m_buffer = some c) :
    get_num k b = some (cast_to_kind k (load_int_cell w sg c)) := by
  rcases b with ⟨t, buf, len, slot⟩
  cases t <;> simp_all [tag_load, get_num]

/-- The string-buffer store never reports an unsupported conversion. -/
lemma psb_ne_unsupported (cs : Nat) (value : List Nat) (b : adb) :
    (put_string_to_string_buffer cs value b).2.1 ≠ .AI_UNSUPPORTED_CONVERSION := by
  unfold put_string_to_string_buffer
  simp only []
  split <;> [skip; split] <;> [skip; skip; split] <;> simp

/-- Truncating store: when the buffer is bound, the slot is bound, capacity
holds at least one character but fewer than the whole value plus terminator,
the string store writes exactly `⌊C/char_size⌋ − 1` characters plus the
terminator, reports the full length, and returns the truncated outcome. -/
lemma psb_truncation (cs : Nat) (value : List Nat) (b : adb) (c : cell)
    (r0 : Int) (hbuf : b.m_buffer = some c) (hslot : b.m_result_len = some r0)
    (hcs1 : 1 ≤ cs) (hcs : (cs : Int) ≤ b.m_buffer_len)
    (hlt : b.m_buffer_len < ((value.length : Int) + 1) * cs) :
    put_string_to_string_buffer cs value b =
      ({ b with
          m_buffer := some (.chars cs
            (value.take (b.m_buffer_len / (cs : Int) - 1).toNat ++ [0])),
          m_result_len := some (value.length : Int) },
        .AI_VARLEN_DATA_TRUNCATED, b.m_buffer_len / (cs : Int) - 1) := by
  rcases b with ⟨t, buf, len, slot⟩
  simp only at hbuf hslot hcs hlt ⊢
  subst hbuf
  subst hslot
  have cspos : (0 : Int) < cs := by exact_mod_cast hcs1
  have hdiv : len / (cs : Int) < (value.length : Int) + 1 :=
    (Int.ediv_lt_iff_lt_mul cspos).mpr hlt
  simp only [put_string_to_string_buffer, adb.setResLen]
  rw [if_neg (not_lt.mpr hcs)]
  rw [min_eq_left (by omega : len / (cs : Int) - 1 ≤ (value.length : Int))]
  rw [if_pos (by omega : len / (cs : Int) - 1 < (value.length : Int))]

/-! ## Claim theorems -/

/-- C5: `put_null()` on a descriptor with no result-length slot bound returns
the "indicator needed" outcome and changes nothing; with a slot bound it
writes the null-length sentinel `SQL_NULL_DATA`, returns success, and a
subsequent `is_data_at_exec()` on the descriptor returns `false`. -/
theorem put_null_spec (b : adb) :
    (b.m_result_len = none → put_null b = (b, .AI_INDICATOR_NEEDED)) ∧
    (∀ r, b.m_result_len = some r →
      put_null b = ({ b with m_result_len := some SQL_NULL_DATA }, .AI_SUCCESS) ∧
      is_data_at_exec (put_null b).1 = false) := by
  constructor
  · intro h
    simp [put_null, h]
  · intro r h
    refine ⟨by simp [put_null, h], ?_⟩
    simp only [put_null, h]
    show is_data_at_exec { b with m_result_len := some SQL_NULL_DATA } = false
    simp only [is_data_at_exec]
    decide

/-- C5 witness: concrete instances of both halves. -/
theorem put_null_spec_witness :
    (put_null ⟨.AI_SIGNED_LONG, some .unspec, 4, none⟩ =
      (⟨.AI_SIGNED_LONG, some .unspec, 4, none⟩, .AI_INDICATOR_NEEDED)) ∧
    (put_null ⟨.AI_SIGNED_LONG, some .unspec, 4, some 7⟩ =
      (⟨.AI_SIGNED_LONG, some .unspec, 4, some SQL_NULL_DATA⟩, .AI_SUCCESS)) ∧
    is_data_at_exec (put_null ⟨.AI_SIGNED_LONG, some .unspec, 4, some 7⟩).1 = false := by
  refine ⟨(put_null_spec ⟨.AI_SIGNED_LONG, some .unspec, 4, none⟩).1 rfl, ?_, ?_⟩
  · exact ((put_null_spec ⟨.AI_SIGNED_LONG, some .unspec, 4, some 7⟩).2 7 rfl).1
  · exact ((put_null_spec ⟨.AI_SIGNED_LONG, some .unspec, 4, some 7⟩).2 7 rfl).2

/-- C2 (code bug): encoding the 128-bit value with msb = 0,
lsb = 0x0102030405060708 into a GUID-tagged buffer with `put_uuid` and
decoding with `get_uuid` does not return the original value: the decode loop
assigns (`=` instead of `|=`) each `Data4` byte, so only the last byte
survives and the recovered lsb is 0x08. -/
theorem guid_roundtrip_bug :
    ((put_uuid ⟨0, 72623859790382856⟩ ⟨.AI_GUID, some .unspec, 16, none⟩).bind
        (fun r => get_uuid r.1)) = some ⟨0, 8⟩ ∧
    (uuid.mk 0 8) ≠ ⟨0, 72623859790382856⟩ := by
  exact ⟨by decide, by decide⟩

/-- C3 (code bug): the GUID, date and numeric-struct store branches read the
data pointer without a null check; on a descriptor whose buffer address is
null they dereference it (the model's crash marker `none`) instead of
skipping the write as the claim requires. -/
theorem null_buffer_dereference :
    put_uuid ⟨1, 2⟩ ⟨.AI_GUID, none, 16, some 0⟩ = none ∧
    put_date ⟨.AI_TDATE, none, 6, some 0⟩ = none ∧
    put_decimal ⟨0, 0, [], [], 1, 0⟩ ⟨.AI_NUMERIC, none, 19, some 0⟩ = none := by
  exact ⟨rfl, rfl, rfl⟩

/-- C4 counterexample: a CHAR-tagged descriptor whose slot stores
`SQL_DATA_AT_EXEC` (−2) is in deferred mode, but the recovered size is 0, not
"stored value minus the encoding base" (−2 − (−100) = 98); and for the
signed-long tag the recovered size is `sizeof(long)` = 8, not
`element_size` = 4. -/
theorem deferred_size_counterexample :
    is_data_at_exec ⟨.AI_CHAR, none, 0, some (-2)⟩ = true ∧
    get_data_at_exec_size ⟨.AI_CHAR, none, 0, some (-2)⟩ = 0 ∧
    (0 : Int) ≠ SQL_DATA_AT_EXEC - SQL_LEN_DATA_AT_EXEC_OFFSET ∧
    is_data_at_exec ⟨.AI_SIGNED_LONG, none, 0, some (-105)⟩ = true ∧
    get_data_at_exec_size ⟨.AI_SIGNED_LONG, none, 0, some (-105)⟩ = 8 ∧
    get_element_size ⟨.AI_SIGNED_LONG, none, 0, some (-105)⟩ = 4 := by
  refine ⟨by decide, by decide, by decide, by decide, by decide, by decide⟩

/-- C4 (amended): in deferred mode, for a text/binary tag whose stored
(int32-cast) value is at or below the −100 threshold the recovered size is
the negated stored value plus the base (−s − 100), doubled (as int32) for the
wide tag; for the `SQL_DATA_AT_EXEC` sentinel it is 0; for every fixed-width
tag the size is a slot-independent constant equal to `element_size`, except
the signed/unsigned long tags, which use `sizeof(long)` (8 on the modelled
LP64 platform, where `element_size` is 4). -/
theorem deferred_size_amended (b : adb) (v : Int)
    (hv : b.m_result_len = some v) (hdef : is_data_at_exec b = true) :
    ((b.m_type = .AI_CHAR ∨ b.m_type = .AI_BINARY) →
        toInt32 v ≤ SQL_LEN_DATA_AT_EXEC_OFFSET →
        get_data_at_exec_size b = -(toInt32 v) + SQL_LEN_DATA_AT_EXEC_OFFSET) ∧
    (b.m_type = .AI_WCHAR → toInt32 v ≤ SQL_LEN_DATA_AT_EXEC_OFFSET →
        get_data_at_exec_size b =
          toInt32 ((-(toInt32 v) + SQL_LEN_DATA_AT_EXEC_OFFSET) * 2)) ∧
    ((b.m_type = .AI_CHAR ∨ b.m_type = .AI_WCHAR ∨ b.m_type = .AI_BINARY) →
        toInt32 v = SQL_DATA_AT_EXEC → get_data_at_exec_size b = 0) ∧
    (b.m_type ∉ ([.AI_CHAR, .AI_WCHAR, .AI_BINARY,
        .AI_SIGNED_LONG, .AI_UNSIGNED_LONG] : List odbc_native_type) →
        get_data_at_exec_size b = get_element_size b) ∧
    ((b.m_type = .AI_SIGNED_LONG ∨ b.m_type = .AI_UNSIGNED_LONG) →
        get_data_at_exec_size b = (sizeof_long : Int)) := by
  rcases b with ⟨t, buf, len, slot⟩
  simp only at hv
  subst hv
  refine ⟨?_, ?_, ?_, ?_, ?_⟩
  · rintro (h | h) hle <;> subst h <;>
      simp [get_data_at_exec_size, hle]
  · rintro h hle
    subst h
    simp [get_data_at_exec_size, hle]
  · rintro (h | h | h) hs <;> subst h <;>
      rw [show SQL_DATA_AT_EXEC = (-2 : Int) from rfl] at hs <;>
      (simp [get_data_at_exec_size, hs, SQL_LEN_DATA_AT_EXEC_OFFSET]
       all_goals decide)
  · intro hnot
    cases t <;> simp_all [get_data_at_exec_size, get_element_size,
      sizeof_SQLSMALLINT, sizeof_SQLINTEGER, sizeof_SQLBIGINT, sizeof_SQLREAL,
      sizeof_SQLDOUBLE, sizeof_SQL_DATE_STRUCT, sizeof_SQL_TIME_STRUCT,
      sizeof_SQL_TIMESTAMP_STRUCT, sizeof_SQL_NUMERIC_STRUCT, sizeof_SQLGUID]
  · rintro (h | h) <;> subst h <;> simp [get_data_at_exec_size]

/-- C4 witness: a wide-character descriptor declared with encoded total 5
(stored −105) recovers 10 bytes; a date-tagged deferred descriptor recovers
its struct size. -/
theorem deferred_size_amended_witness :
    is_data_at_exec ⟨.AI_WCHAR, none, 0, some (-105)⟩ = true ∧
    get_data_at_exec_size ⟨.AI_WCHAR, none, 0, some (-105)⟩ =
      toInt32 ((-(toInt32 (-105)) + SQL_LEN_DATA_AT_EXEC_OFFSET) * 2) ∧
    get_data_at_exec_size ⟨.AI_TDATE, none, 0, some (-105)⟩ =
      get_element_size ⟨.AI_TDATE, none, 0, some (-105)⟩ := by
  refine ⟨by decide, ?_, ?_⟩
  · exact (deferred_size_amended ⟨.AI_WCHAR, none, 0, some (-105)⟩ (-105) rfl
      (by decide)).2.1 rfl (by decide)
  · exact (deferred_size_amended ⟨.AI_TDATE, none, 0, some (-105)⟩ (-105) rfl
      (by decide)).2.2.2.1 (by decide)

/-- C10: a put of a string into a text-tagged descriptor whose buffer address
is null writes the full required length into the result-length slot (when
bound) and returns success — never truncation — regardless of the declared
capacity. -/
theorem put_string_null_buffer (value : List Nat) (b : adb)
    (htag : b.m_type = .AI_CHAR ∨ b.m_type = .AI_WCHAR)
    (hbuf : b.m_buffer = none) :
    put_string value b =
      some ({ b with m_result_len :=
          b.m_result_len.map (fun _ => (value.length : Int)) },
        .AI_SUCCESS, 0) := by
  rcases b with ⟨t, buf, len, slot⟩
  simp only at hbuf
  subst hbuf
  rcases htag with h | h <;> simp only at h <;> subst h <;>
    cases slot <;>
    simp [put_string, put_string_to_string_buffer, adb.setResLen]

/-- C10 witness: capacity 4, value "12345", null buffer: slot gets 5 and the
outcome is success. -/
theorem put_string_null_buffer_witness :
    put_string [49, 50, 51, 52, 53] ⟨.AI_CHAR, none, 4, some 0⟩ =
      some (⟨.AI_CHAR, none, 4, some 5⟩, .AI_SUCCESS, 0) := by
  have h := put_string_null_buffer [49, 50, 51, 52, 53]
    ⟨.AI_CHAR, none, 4, some 0⟩ (Or.inl rfl) rfl
  exact h.trans (by decide)

/-- C1: a put of a string into a text-tagged descriptor whose bound buffer
holds at least one character but fewer than the full value of length L plus
terminator writes exactly `⌊C/char_size⌋ − 1` characters plus the terminator,
writes L (the full untruncated length) into the result-length slot, and
returns the truncated outcome (`char_size` is 1 for the narrow tag and
`sizeof(wchar_t)` for the wide tag). -/
theorem put_string_truncation (cs : Nat) (value : List Nat) (b : adb)
    (c : cell) (r0 : Int)
    (hdisp : (b.m_type = .AI_CHAR ∧ cs = 1) ∨
      (b.m_type = .AI_WCHAR ∧ cs = sizeof_wchar))
    (hbuf : b.m_buffer = some c) (hslot : b.m_result_len = some r0)
    (hcs : (cs : Int) ≤ b.m_buffer_len)
    (hlt : b.m_buffer_len < ((value.length : Int) + 1) * cs) :
    put_string value b =
      some ({ b with
          m_buffer := some (.chars cs
            (value.take (b.m_buffer_len / (cs : Int) - 1).toNat ++ [0])),
          m_result_len := some (value.length : Int) },
        .AI_VARLEN_DATA_TRUNCATED, b.m_buffer_len / (cs : Int) - 1) := by
  rcases hdisp with ⟨ht, hcseq⟩ | ⟨ht, hcseq⟩ <;> subst hcseq <;>
    rcases b with ⟨t, buf, len, slot⟩ <;> simp only at ht <;> subst ht <;>
    simp only [put_string] <;>
    rw [psb_truncation _ value _ c r0 hbuf hslot (by norm_num [sizeof_wchar])
      hcs hlt]

/-- C1 witness: capacity 4, narrow text tag, value "12345": the buffer ends
holding "123\0", the slot holds 5, and the outcome is truncated. -/
theorem put_string_truncation_witness :
    put_string [49, 50, 51, 52, 53] ⟨.AI_CHAR, some .unspec, 4, some 0⟩ =
      some (⟨.AI_CHAR, some (.chars 1 [49, 50, 51, 0]), 4, some 5⟩,
        .AI_VARLEN_DATA_TRUNCATED, 3) := by
  have h := put_string_truncation 1 [49, 50, 51, 52, 53]
    ⟨.AI_CHAR, some .unspec, 4, some 0⟩ .unspec 0 (Or.inl ⟨rfl, rfl⟩) rfl rfl
    (by norm_num) (by norm_num)
  exact h.trans (by decide)

/-- C8: for every internal numeric kind and every fixed-width numeric target
tag, `put_num` always returns success, regardless of whether the value fits:
the value is static-cast narrowed into the target's width and the
result-length slot, when bound, receives the target type's size. -/
theorem put_num_narrowing (k : num_kind) (v : Int) (b : adb) (w : Nat) :
    (num_target_width b.m_type = some w →
      put_num k v b =
        some ((b.setCell (.ints w (toUnsigned w v))).setResLen (w : Int),
          .AI_SUCCESS)) ∧
    (flt_target_width b.m_type = some w →
      put_num k v b =
        some ((b.setCell (.flt w (fl_round (fl_prec w) v))).setResLen (w : Int),
          .AI_SUCCESS)) :=
  ⟨fun h => put_num_of_int_target k v b w h,
   fun h => put_num_of_flt_target k v b w h⟩

/-- C8 witness: `put_int64(300)` into a signed 32-bit tag stores 300 and
succeeds; `put_int64(300)` into a signed 8-bit tag stores the narrowed byte
value 44 and still succeeds. -/
theorem put_num_narrowing_witness :
    put_int64 300 ⟨.AI_SIGNED_LONG, some .unspec, 4, some 0⟩ =
      some (⟨.AI_SIGNED_LONG, some (.ints 4 300), 4, some 4⟩, .AI_SUCCESS) ∧
    put_int64 300 ⟨.AI_SIGNED_TINYINT, some .unspec, 1, some 0⟩ =
      some (⟨.AI_SIGNED_TINYINT, some (.ints 1 44), 1, some 1⟩, .AI_SUCCESS) := by
  constructor
  · have h := (put_num_narrowing .i64 300
      ⟨.AI_SIGNED_LONG, some .unspec, 4, some 0⟩ 4).1 rfl
    exact h.trans (by decide)
  · have h := (put_num_narrowing .i64 300
      ⟨.AI_SIGNED_TINYINT, some .unspec, 1, some 0⟩ 1).1 rfl
    exact h.trans (by decide)

/-- C9: `put_decimal` into any fixed-width integer or float/double target tag
always returns the fractional-truncation outcome, for every decimal value,
even one that loses nothing in the conversion. -/
theorem put_decimal_always_lossy (d : big_decimal) (b : adb) (w : Nat)
    (h : num_target_width b.m_type = some w ∨
      flt_target_width b.m_type = some w) :
    (put_decimal d b).map Prod.snd = some .AI_FRACTIONAL_TRUNCATED := by
  rcases b with ⟨t, buf, len, slot⟩
  rcases h with h | h <;>
    cases t <;>
    simp_all [num_target_width, flt_target_width, put_decimal, put_num,
      put_num_to_num_buffer_int, put_num_to_num_buffer_flt]

/-- C9 witness: the integral decimal 7 put into a signed 32-bit tag still
reports fractional truncation. -/
theorem put_decimal_always_lossy_witness :
    (put_decimal ⟨7, 7, [55], [7], 1, 1⟩
        ⟨.AI_SIGNED_LONG, some .unspec, 4, some 0⟩).map Prod.snd =
      some .AI_FRACTIONAL_TRUNCATED :=
  put_decimal_always_lossy ⟨7, 7, [55], [7], 1, 1⟩
    ⟨.AI_SIGNED_LONG, some .unspec, 4, some 0⟩ 4 (Or.inl rfl)

/-- C7 counterexample: `put_int64(2^25 + 1)` into the float tag stores
`static_cast<float>` = 33554432 (the value exceeds the 24-bit significand, so
it is rounded even though it lies well within float's min/max range), and
`get_int64` reads back 33554432 — the round trip does not recover the
original value. -/
theorem numeric_roundtrip_counterexample :
    (put_num .i64 33554433 ⟨.AI_FLOAT, some .unspec, 4, some 0⟩).bind
        (fun r => get_num .i64 r.1) = some 33554432 ∧
    (33554432 : Int) ≠ 33554433 := by
  exact ⟨by decide, by decide⟩

/-- C7 (amended): for every internal numeric kind at a value exactly
representable in the kind, and every fixed-width numeric tag, putting the
value and reading it back with the same kind's get recovers it whenever the
value is *exactly representable* in the target — within the target's integer
range for the integer tags, and exact under rounding to the 24/53-bit
significand for the float/double tags. -/
theorem numeric_roundtrip (k : num_kind) (v : Int) (b : adb) (c : cell)
    (hkr : kind_in_range k v) (hbuf : b.m_buffer = some c) :
    (∀ (w : Nat) (sg : Bool), tag_load b.m_type = some (w, sg) →
      load_in_range w sg v →
      put_num k v b =
        some ((b.setCell (.ints w (toUnsigned w v))).setResLen (w : Int),
          .AI_SUCCESS) ∧
      get_num k ((b.setCell (.ints w (toUnsigned w v))).setResLen (w : Int)) =
        some v) ∧
    (∀ (w : Nat), flt_target_width b.m_type = some w →
      fl_round (fl_prec w) v = v →
      put_num k v b =
        some ((b.setCell (.flt w (fl_round (fl_prec w) v))).setResLen (w : Int),
          .AI_SUCCESS) ∧
      get_num k ((b.setCell (.flt w (fl_round (fl_prec w) v))).setResLen
          (w : Int)) =
        some v) := by
  constructor
  · intro w sg hload htr
    have hw1 : 1 ≤ w := tag_load_w_pos _ _ _ hload
    have htarget := tag_load_num_target _ _ _ hload
    refine ⟨put_num_of_int_target k v b w htarget, ?_⟩
    have hty : ((b.setCell (.ints w (toUnsigned w v))).setResLen (w : Int)).m_type
        = b.m_type := by rw [setResLen_m_type, setCell_m_type]
    have hbuf' : ((b.setCell (.ints w (toUnsigned w v))).setResLen (w : Int)).m_buffer
        = some (.ints w (toUnsigned w v)) := by
      rw [setResLen_m_buffer]
      exact setCell_m_buffer_of_some b _ c hbuf
    rw [get_num_of_tag_load k _ w sg _ (hty ▸ hload) hbuf']
    congr 1
    have hcell : load_int_cell w sg (.ints w (toUnsigned w v)) =
        (if sg then toSigned w (toUnsigned w v)
         else ((toUnsigned w v : Nat) : Int)) := by
      simp [load_int_cell]
    rw [hcell]
    cases sg
    · simp only [Bool.false_eq_true, if_false]
      simp only [load_in_range, Bool.false_eq_true, if_false,
        in_range_unsigned] at htr
      rw [toUnsigned_of_range w v htr.1 htr.2]
      exact cast_to_kind_of_range k v hkr
    · simp only [if_true]
      simp only [load_in_range, if_true, in_range_signed] at htr
      rw [toSigned_toUnsigned_of_range w v hw1 htr.1 htr.2]
      exact cast_to_kind_of_range k v hkr
  · intro w hflt hfl
    refine ⟨put_num_of_flt_target k v b w hflt, ?_⟩
    have hty : ((b.setCell (.flt w (fl_round (fl_prec w) v))).setResLen
        (w : Int)).m_type = b.m_type := by rw [setResLen_m_type, setCell_m_type]
    have hbuf' : ((b.setCell (.flt w (fl_round (fl_prec w) v))).setResLen
        (w : Int)).m_buffer = some (.flt w (fl_round (fl_prec w) v)) := by
      rw [setResLen_m_buffer]
      exact setCell_m_buffer_of_some b _ c hbuf
    rw [get_num_of_flt_tag k _ _ w (hty ▸ hflt) hbuf']
    congr 1
    show cast_to_kind k (load_flt_cell (.flt w (fl_round (fl_prec w) v))) = v
    rw [show load_flt_cell (.flt w (fl_round (fl_prec w) v)) =
      fl_round (fl_prec w) v from rfl, hfl]
    exact cast_to_kind_of_range k v hkr

/-- C7 witness: −5 through a signed 8-bit tag with the int64 kind (stored bit
pattern 251) reads back as −5; 1000 (exactly representable in float) through
the float tag reads back as 1000. -/
theorem numeric_roundtrip_witness :
    (put_num .i64 (-5) ⟨.AI_SIGNED_TINYINT, some .unspec, 1, some 0⟩ =
      some (⟨.AI_SIGNED_TINYINT, some (.ints 1 251), 1, some 1⟩, .AI_SUCCESS) ∧
    get_num .i64 ⟨.AI_SIGNED_TINYINT, some (.ints 1 251), 1, some 1⟩ =
      some (-5)) ∧
    (put_num .i64 1000 ⟨.AI_FLOAT, some .unspec, 4, some 0⟩ =
      some (⟨.AI_FLOAT, some (.flt 4 1000), 4, some 4⟩, .AI_SUCCESS) ∧
    get_num .i64 ⟨.AI_FLOAT, some (.flt 4 1000), 4, some 4⟩ = some 1000) := by
  constructor
  · have h := (numeric_roundtrip .i64 (-5)
      ⟨.AI_SIGNED_TINYINT, some .unspec, 1, some 0⟩ .unspec
      (by constructor <;> decide) rfl).1 1 true rfl
      (by constructor <;> decide)
    exact ⟨h.1.trans (by decide), h.2⟩
  · have h := (numeric_roundtrip .i64 1000
      ⟨.AI_FLOAT, some .unspec, 4, some 0⟩ .unspec
      (by constructor <;> decide) rfl).2 4 rfl (by decide)
    exact ⟨h.1.trans (by decide), (by decide :
      (⟨.AI_FLOAT, some (.flt 4 1000), 4, some 4⟩ : adb) =
        ((⟨.AI_FLOAT, some .unspec, 4, some 0⟩ : adb).setCell
            (.flt 4 (fl_round (fl_prec 4) 1000))).setResLen 4) ▸ h.2⟩

lemma put_num_unsup (k : num_kind) (v : Int) (b b' : adb)
    (r : conversion_result) (h : put_num k v b = some (b', r))
    (hr : r = .AI_UNSUPPORTED_CONVERSION) : b' = b := by
  subst hr
  rcases b with ⟨t, buf, len, slot⟩
  cases t <;> cases buf <;>
    simp only [put_num, put_num_to_num_buffer_int, put_num_to_num_buffer_flt,
      Option.map_some', Option.some.injEq, Prod.mk.injEq] at h <;>
    first
      | exact Option.noConfusion h
      | exact absurd (congrArg (fun p => p.2.1) h) (psb_ne_unsupported _ _ _)
      | (obtain ⟨h1, h2⟩ := h
         first
           | exact h2.elim
           | exact absurd h2 (by decide)
           | exact absurd h2 (psb_ne_unsupported _ _ _)
           | (split at h2 <;> exact absurd h2 (by decide))
           | exact h1.symm)
      | simp_all

lemma put_string_unsup (value : List Nat) (b b' : adb)
    (r : conversion_result) (wr : Int)
    (h : put_string value b = some (b', r, wr))
    (hr : r = .AI_UNSUPPORTED_CONVERSION) : b' = b := by
  subst hr
  rcases b with ⟨t, buf, len, slot⟩
  cases t <;> cases buf <;>
    simp only [put_string, put_num, put_num_to_num_buffer_int,
      put_num_to_num_buffer_flt, Option.map_some', Option.some.injEq,
      Prod.mk.injEq] at h <;>
    first
      | exact Option.noConfusion h
      | exact absurd (congrArg (fun p => p.2.1) h) (psb_ne_unsupported _ _ _)
      | (obtain ⟨h1, h2, h3⟩ := h
         first
           | exact h2.elim
           | exact absurd h2 (by decide)
           | exact absurd h2 (psb_ne_unsupported _ _ _)
           | (split at h2 <;> exact absurd h2 (by decide))
           | exact h1.symm)
      | simp_all

lemma put_uuid_unsup (u : uuid) (b b' : adb) (r : conversion_result)
    (h : put_uuid u b = some (b', r))
    (hr : r = .AI_UNSUPPORTED_CONVERSION) : b' = b := by
  subst hr
  rcases b with ⟨t, buf, len, slot⟩
  cases t <;> cases buf <;>
    simp only [put_uuid, Option.map_some', Option.some.injEq,
      Prod.mk.injEq] at h <;>
    first
      | exact Option.noConfusion h
      | exact absurd (congrArg (fun p => p.2.1) h) (psb_ne_unsupported _ _ _)
      | (obtain ⟨h1, h2⟩ := h
         first
           | exact h2.elim
           | exact absurd h2 (by decide)
           | exact absurd h2 (psb_ne_unsupported _ _ _)
           | (split at h2 <;> exact absurd h2 (by decide))
           | exact h1.symm)
      | simp_all

lemma put_decimal_unsup (d : big_decimal) (b b' : adb)
    (r : conversion_result) (h : put_decimal d b = some (b', r))
    (hr : r = .AI_UNSUPPORTED_CONVERSION) : b' = b := by
  subst hr
  rcases b with ⟨t, buf, len, slot⟩
  cases t <;> cases buf <;>
    simp only [put_decimal, put_string, put_num, put_num_to_num_buffer_int,
      put_num_to_num_buffer_flt, Option.map_some', Option.some.injEq,
      Prod.mk.injEq] at h <;>
    first
      | exact Option.noConfusion h
      | exact absurd (congrArg (fun p => p.2.1) h) (psb_ne_unsupported _ _ _)
      | (obtain ⟨h1, h2⟩ := h
         first
           | exact h2.elim
           | exact absurd h2 (by decide)
           | exact absurd h2 (psb_ne_unsupported _ _ _)
           | (split at h2 <;> exact absurd h2 (by decide))
           | exact h1.symm)
      | simp_all

lemma put_date_unsup (b b' : adb) (r : conversion_result)
    (h : put_date b = some (b', r))
    (hr : r = .AI_UNSUPPORTED_CONVERSION) : b' = b := by
  subst hr
  rcases b with ⟨t, buf, len, slot⟩
  cases t <;> cases buf <;>
    simp only [put_date, Option.some.injEq, Prod.mk.injEq] at h <;>
    first
      | exact Option.noConfusion h
      | (obtain ⟨h1, h2⟩ := h
         first
           | exact h2.elim
           | exact absurd h2 (by decide)
           | (split at h2 <;> exact absurd h2 (by decide))
           | exact h1.symm)
      | simp_all

/-- C6: whenever a put operation reports an unsupported conversion, the
descriptor — buffer contents and result-length slot — is left unmodified
(shown for `put_num` of every kind, `put_string`, `put_uuid`, `put_decimal`
and `put_date`). -/
theorem unsupported_conversion_atomic :
    (∀ (k : num_kind) (v : Int) (b b' : adb) (r : conversion_result),
      put_num k v b = some (b', r) →
      r = .AI_UNSUPPORTED_CONVERSION → b' = b) ∧
    (∀ (value : List Nat) (b b' : adb) (r : conversion_result) (wr : Int),
      put_string value b = some (b', r, wr) →
      r = .AI_UNSUPPORTED_CONVERSION → b' = b) ∧
    (∀ (u : uuid) (b b' : adb) (r : conversion_result),
      put_uuid u b = some (b', r) →
      r = .AI_UNSUPPORTED_CONVERSION → b' = b) ∧
    (∀ (d : big_decimal) (b b' : adb) (r : conversion_result),
      put_decimal d b = some (b', r) →
      r = .AI_UNSUPPORTED_CONVERSION → b' = b) ∧
    (∀ (b b' : adb) (r : conversion_result),
      put_date b = some (b', r) →
      r = .AI_UNSUPPORTED_CONVERSION → b' = b) :=
  ⟨put_num_unsup, put_string_unsup, put_uuid_unsup, put_decimal_unsup,
    put_date_unsup⟩

/-- C6 witness: a date put into a numeric-struct tag and a decimal put into a
binary tag both report unsupported conversion with the state unchanged. -/
theorem unsupported_conversion_atomic_witness :
    put_num .i64 5 ⟨.AI_TDATE, some .unspec, 6, some 0⟩ =
      some (⟨.AI_TDATE, some .unspec, 6, some 0⟩, .AI_UNSUPPORTED_CONVERSION) ∧
    (⟨.AI_TDATE, some .unspec, 6, some 0⟩ : adb) =
      ⟨.AI_TDATE, some .unspec, 6, some 0⟩ ∧
    put_decimal ⟨7, 7, [55], [7], 1, 1⟩ ⟨.AI_BINARY, some .unspec, 4, some 0⟩ =
      some (⟨.AI_BINARY, some .unspec, 4, some 0⟩, .AI_UNSUPPORTED_CONVERSION) ∧
    (⟨.AI_BINARY, some .unspec, 4, some 0⟩ : adb) =
      ⟨.AI_BINARY, some .unspec, 4, some 0⟩ := by
  refine ⟨rfl, ?_, rfl, ?_⟩
  · exact unsupported_conversion_atomic.1 .i64 5
      ⟨.AI_TDATE, some .unspec, 6, some 0⟩ ⟨.AI_TDATE, some .unspec, 6, some 0⟩
      .AI_UNSUPPORTED_CONVERSION rfl rfl
  · exact unsupported_conversion_atomic.2.2.2.1 ⟨7, 7, [55], [7], 1, 1⟩
      ⟨.AI_BINARY, some .unspec, 4, some 0⟩ ⟨.AI_BINARY, some .unspec, 4, some 0⟩
      .AI_UNSUPPORTED_CONVERSION rfl rfl

end IgniteOdbc
